import Mathlib

/-!
Shallow embedding of the ansible-os-sfc modules
(`os_sfc_port_pair.py`, `os_sfc_flow_classifier.py`,
`os_sfc_port_pair_group.py`, `os_sfc_port_chain.py`).

Each module's `_needs_update`, `_system_state_change`, the `_compose_*_args`
helper, the dependency resolver (`_ports_get_ids`, `_port_pairs_get_ids`,
`_port_chains_get_ids`) and `main` are translated directly from the Python
source.  The cloud SDK is modelled as a record of read-only lookup functions;
the mutating SDK calls (`create_*`, `update_*`, `delete_*`) are recorded in an
event trace instead of being executed.  `module.fail_json` and
`module.exit_json` terminate the run, so `main` returns an `Outcome` together
with the trace of mutating calls it issued.  Python-level faults that the
source can raise (the `module.param` attribute error in the port-chain
`_needs_update`, the undefined `_compose_port_pair_groups_args` name in the
port-pair-group update branch, the undefined `port_ids` name in the port-pair
resolver, `set(None)` / `None['id']` type errors) are modelled as explicit
`crashed` outcomes, since none of them is an `OpenStackCloudException` and the
`try` block in each `main` only catches that class.
-/

/-- Association list standing for a Python `dict` parameter value
(keys and values are strings in every scenario the modules document). -/
abbrev PyDict := List (String × String)

/-- First-match lookup in an association list (Python `dict` access). -/
def dlookup : PyDict → String → Option String
  | [], _ => none
  | (k, v) :: rest, key => if k = key then some v else dlookup rest key

/-- Python `dict` equality: extensional equality of the key/value mappings. -/
def dictEq (a b : PyDict) : Bool :=
  a.all (fun kv => dlookup b kv.fst == some kv.snd) &&
  b.all (fun kv => dlookup a kv.fst == some kv.snd)

/-- Python `set(a) == set(b)` on lists of strings: mutual membership. -/
def listSetEq (a b : List String) : Bool :=
  a.all (fun x => b.contains x) && b.all (fun x => a.contains x)

/-- Python truthiness of an optional string (`if name:`):
`None` and the empty string are falsy. -/
def truthyStr : Option String → Bool
  | none => false
  | some s => !s.isEmpty

/-- Python truthiness of an optional list (`if not ppg_names:`):
`None` and the empty list are falsy. -/
def truthyList : Option (List String) → Bool
  | none => false
  | some l => !l.isEmpty

/-- Comparison of one `compare_simple` entry:
`module.params[key] is not None and module.params[key] != value`. -/
def scalarDiff (param : Option String) (value : String) : Bool :=
  match param with
  | none => false
  | some v => v != value

/-- Python-level faults the modules can raise (never caught by the
`except shade.OpenStackCloudException` handler in `main`). -/
inductive PyErr where
  | attributeError (msg : String)
  | nameError (msg : String)
  | typeError (msg : String)
deriving DecidableEq

/-- Terminal outcome of one module invocation: `exit_json(changed=...)`,
`fail_json(msg=...)`, or an uncaught Python fault. -/
inductive Outcome where
  | exited (changed : Bool)
  | failed (msg : String)
  | crashed (e : PyErr)
deriving DecidableEq

/-- The `state` module parameter (`choices=['absent', 'present']`). -/
inductive TargetState where
  | present
  | absent
deriving DecidableEq

/-- Failure of a dependency resolver: either a `fail_json` exit or a
Python fault. -/
inductive ResFail where
  | fail (msg : String)
  | crash (e : PyErr)
deriving DecidableEq

deriving instance DecidableEq for Except

/-- Keyword payload of `create_sfc_port_pair` / `update_sfc_port_pair`;
`none` means the key is absent from the kwargs dict. -/
structure PpKwargs where
  name : Option String
  ingress : Option String
  egress : Option String
  service_function_parameters : Option PyDict
deriving DecidableEq

/-- Keyword payload of the flow-classifier create/update calls. -/
structure FcKwargs where
  name : Option String
  ethertype : Option String
  protocol : Option String
  source_port_range_min : Option String
  source_port_range_max : Option String
  destination_port_range_min : Option String
  destination_port_range_max : Option String
  source_ip_pfx : Option String
  destination_ip_pfx : Option String
  l7_parameters : Option PyDict
  logical_source_port : Option String
  logical_destination_port : Option String
deriving DecidableEq

/-- Keyword payload of the port-pair-group create call
(`port_pairs` is always assigned, possibly `None`). -/
structure PpgKwargs where
  name : Option String
  port_pair_group_parameters : Option PyDict
  port_pairs : Option (List String)
deriving DecidableEq

/-- Keyword payload of the port-chain create/update calls. -/
structure PcKwargs where
  name : Option String
  port_pair_groups : Option (List String)
  flow_classifiers : Option (List String)
  chain_parameters : Option PyDict
  chain_id : Option String
deriving DecidableEq

/-- One mutating call against the remote store. -/
inductive MutCall where
  | createPortPair (kwargs : PpKwargs)
  | updatePortPair (id : String) (kwargs : PpKwargs)
  | deletePortPair (id : String)
  | createFlowClassifier (kwargs : FcKwargs)
  | updateFlowClassifier (id : String) (kwargs : FcKwargs)
  | deleteFlowClassifier (id : String)
  | createPortPairGroup (kwargs : PpgKwargs)
  | updatePortPairGroup (id : String) (kwargs : PpgKwargs)
  | deletePortPairGroup (id : String)
  | createPortChain (kwargs : PcKwargs)
  | updatePortChain (id : String) (kwargs : PcKwargs)
  | deletePortChain (id : String)
deriving DecidableEq

/-- Discriminates the update calls among `MutCall`s. -/
def isUpdateCall : MutCall → Bool
  | .updatePortPair _ _ => true
  | .updateFlowClassifier _ _ => true
  | .updatePortPairGroup _ _ => true
  | .updatePortChain _ _ => true
  | _ => false

/-- Discriminates specifically the port-pair-group update call. -/
def isPpgUpdateCall : MutCall → Bool
  | .updatePortPairGroup _ _ => true
  | _ => false

/-! ## os_sfc_port_pair.py -/

/-- A Neutron port as returned by `cloud.get_port` (only `id` is read). -/
structure PortObj where
  id : String
deriving DecidableEq

/-- A live port pair as returned by `cloud.get_sfc_port_pair`. -/
structure PortPairObj where
  id : String
  name : String
  ingress : String
  egress : String
  service_function_parameters : PyDict
deriving DecidableEq

/-- The `module.params` of `os_sfc_port_pair` (besides `state`, all default
to `None`). -/
structure PpParams where
  name : Option String
  ingress : Option String
  egress : Option String
  service_function_parameters : Option PyDict
  state : TargetState
deriving DecidableEq

/-- The `ports_ids` dict built by `_ports_get_ids`: `ingress` / `egress`
keys optionally present. -/
structure PortsIds where
  ingress : Option String
  egress : Option String
deriving DecidableEq

/-- Read-only cloud SDK surface used by `os_sfc_port_pair`. -/
structure PpCloud where
  get_port : String → Option PortObj
  get_sfc_port_pair : String → Option PortPairObj

/-- `_needs_update` of `os_sfc_port_pair.py`:
`compare_simple = ['ingress', 'egress']`, each compared via
`ports.get(key, pp[key])`; `compare_dict = ['service_function_parameters']`
compared against `pp[key]`. -/
def pp_needs_update (p : PpParams) (pp : PortPairObj) (ports : PortsIds) : Bool :=
  scalarDiff p.ingress (ports.ingress.getD pp.ingress) ||
  scalarDiff p.egress (ports.egress.getD pp.egress) ||
  (match p.service_function_parameters with
   | none => false
   | some d => !dictEq d pp.service_function_parameters)

/-- `_system_state_change` of `os_sfc_port_pair.py`. -/
def pp_system_state_change (p : PpParams) (pp : Option PortPairObj)
    (ports : PortsIds) : Bool :=
  match p.state with
  | .present =>
    match pp with
    | none => true
    | some obj => pp_needs_update p obj ports
  | .absent => pp.isSome

/-- `_compose_port_pair_args`: each optional parameter is included in the
kwargs iff it is not `None`. -/
def pp_compose_args (p : PpParams) : PpKwargs :=
  { name := p.name
    ingress := p.ingress
    egress := p.egress
    service_function_parameters := p.service_function_parameters }

/-- `_ports_get_ids` of `os_sfc_port_pair.py`.  With `fail_on_error=True` a
missing parameter or a failed lookup calls `fail_json`; with
`fail_on_error=False` a missing parameter reaches `return port_ids`, a
reference to the undefined name `port_ids` (the local is `ports_ids`),
raising `NameError`, while a failed lookup merely leaves the key unset. -/
def pp_ports_get_ids (p : PpParams) (c : PpCloud) (fail_on_error : Bool) :
    Except ResFail PortsIds :=
  if !truthyStr p.ingress then
    if fail_on_error then
      .error (.fail "Parameter \x27ingress\x27 is required in Sfc Port Pair Create")
    else
      .error (.crash (.nameError "name \x27port_ids\x27 is not defined"))
  else if !truthyStr p.egress then
    if fail_on_error then
      .error (.fail "Parameter \x27egress\x27 is required in Sfc Port Pair Create")
    else
      .error (.crash (.nameError "name \x27port_ids\x27 is not defined"))
  else
    match c.get_port (p.ingress.getD "") with
    | none =>
      if fail_on_error then
        .error (.fail "Specified ingress port was not found.")
      else
        match c.get_port (p.egress.getD "") with
        | none => .ok { ingress := none, egress := none }
        | some eport => .ok { ingress := none, egress := some eport.id }
    | some iport =>
      match c.get_port (p.egress.getD "") with
      | none =>
        if fail_on_error then
          .error (.fail "Specified egress port was not found.")
        else
          .ok { ingress := some iport.id, egress := none }
      | some eport => .ok { ingress := some iport.id, egress := some eport.id }

/-- The `pp` lookup at the top of `main`: `pp = None; if name: pp =
cloud.get_sfc_port_pair(name)`. -/
def pp_current (p : PpParams) (c : PpCloud) : Option PortPairObj :=
  if truthyStr p.name then c.get_sfc_port_pair (p.name.getD "") else none

/-- `main` of `os_sfc_port_pair.py`, returning the terminal outcome and the
trace of mutating remote-store calls. -/
def pp_main (p : PpParams) (check_mode : Bool) (c : PpCloud) :
    Outcome × List MutCall :=
  if check_mode then
    match pp_ports_get_ids p c false with
    | .error (.crash e) => (.crashed e, [])
    | .error (.fail m) => (.failed m, [])
    | .ok ports => (.exited (pp_system_state_change p (pp_current p c) ports), [])
  else
    match p.state with
    | .present =>
      match pp_ports_get_ids p c true with
      | .error (.crash e) => (.crashed e, [])
      | .error (.fail m) => (.failed m, [])
      | .ok ports =>
        match pp_current p c with
        | none =>
          match ports.ingress, ports.egress with
          | some i, some e =>
            (.exited true,
             [.createPortPair
               { pp_compose_args p with ingress := some i, egress := some e }])
          | _, _ =>
            -- pp_kwargs['ingress'] = ports['ingress'] on a missing key;
            -- unreachable: the fail_on_error=True resolver sets both keys
            (.crashed (.typeError "KeyError: ingress"), [])
        | some obj =>
          if pp_needs_update p obj ports then
            (.exited true, [.updatePortPair obj.id (pp_compose_args p)])
          else
            (.exited false, [])
    | .absent =>
      match pp_current p c with
      | some obj => (.exited true, [.deletePortPair obj.id])
      | none => (.exited false, [])

/-! ## os_sfc_flow_classifier.py -/

/-- A live flow classifier as returned by `cloud.get_sfc_flow_classifier`. -/
structure FcObj where
  id : String
  name : String
  ethertype : String
  protocol : String
  source_port_range_min : String
  source_port_range_max : String
  destination_port_range_min : String
  destination_port_range_max : String
  source_ip_pfx : String
  destination_ip_pfx : String
  logical_source_port : String
  logical_destination_port : String
  l7_parameters : PyDict
deriving DecidableEq

/-- The `module.params` of `os_sfc_flow_classifier`. -/
structure FcParams where
  name : Option String
  ethertype : Option String
  protocol : Option String
  source_port_range_min : Option String
  source_port_range_max : Option String
  destination_port_range_min : Option String
  destination_port_range_max : Option String
  source_ip_pfx : Option String
  destination_ip_pfx : Option String
  logical_source_port : Option String
  logical_destination_port : Option String
  l7_parameters : Option PyDict
  state : TargetState
deriving DecidableEq

/-- The `ports_ids` dict built by the flow-classifier `_ports_get_ids`:
only the two logical-port keys can be present. -/
structure FcPorts where
  logical_source_port : Option String
  logical_destination_port : Option String
deriving DecidableEq

/-- Read-only cloud SDK surface used by `os_sfc_flow_classifier`. -/
structure FcCloud where
  get_port : String → Option PortObj
  get_sfc_flow_classifier : String → Option FcObj

/-- `_needs_update` of `os_sfc_flow_classifier.py`: ten `compare_simple`
keys, each compared against `ports.get(key, fc[key])` (only the two logical
ports can be present in `ports`), and `compare_dict = ['l7_parameters']`. -/
def fc_needs_update (p : FcParams) (fc : FcObj) (ports : FcPorts) : Bool :=
  scalarDiff p.ethertype fc.ethertype ||
  scalarDiff p.protocol fc.protocol ||
  scalarDiff p.source_port_range_min fc.source_port_range_min ||
  scalarDiff p.source_port_range_max fc.source_port_range_max ||
  scalarDiff p.destination_port_range_min fc.destination_port_range_min ||
  scalarDiff p.destination_port_range_max fc.destination_port_range_max ||
  scalarDiff p.source_ip_pfx fc.source_ip_pfx ||
  scalarDiff p.destination_ip_pfx fc.destination_ip_pfx ||
  scalarDiff p.logical_source_port
    (ports.logical_source_port.getD fc.logical_source_port) ||
  scalarDiff p.logical_destination_port
    (ports.logical_destination_port.getD fc.logical_destination_port) ||
  (match p.l7_parameters with
   | none => false
   | some d => !dictEq d fc.l7_parameters)

/-- `_system_state_change` of `os_sfc_flow_classifier.py`. -/
def fc_system_state_change (p : FcParams) (fc : Option FcObj)
    (ports : FcPorts) : Bool :=
  match p.state with
  | .present =>
    match fc with
    | none => true
    | some obj => fc_needs_update p obj ports
  | .absent => fc.isSome

/-- `_compose_flow_classifier_args`: the ten optional parameters are taken
from `module.params` when not `None`; the two logical ports are taken from
the resolved `ports` dict when present there. -/
def fc_compose_args (p : FcParams) (ports : FcPorts) : FcKwargs :=
  { name := p.name
    ethertype := p.ethertype
    protocol := p.protocol
    source_port_range_min := p.source_port_range_min
    source_port_range_max := p.source_port_range_max
    destination_port_range_min := p.destination_port_range_min
    destination_port_range_max := p.destination_port_range_max
    source_ip_pfx := p.source_ip_pfx
    destination_ip_pfx := p.destination_ip_pfx
    l7_parameters := p.l7_parameters
    logical_source_port := ports.logical_source_port
    logical_destination_port := ports.logical_destination_port }

/-- Second half of the flow-classifier `_ports_get_ids`: the
`logical_destination_port` lookup, given the already-computed
`logical_source_port` entry. -/
def fc_ports_get_ids_dst (p : FcParams) (c : FcCloud) (fail_on_error : Bool)
    (lsp : Option String) : Except String FcPorts :=
  match p.logical_destination_port with
  | none => .ok { logical_source_port := lsp, logical_destination_port := none }
  | some v =>
    match c.get_port v with
    | none =>
      if fail_on_error then
        .error "Specified logical destination port was not found."
      else
        .ok { logical_source_port := lsp, logical_destination_port := none }
    | some port =>
      .ok { logical_source_port := lsp, logical_destination_port := some port.id }

/-- `_ports_get_ids` of `os_sfc_flow_classifier.py` (note the `is not None`
tests, and that both call sites in `main` use `fail_on_error=False`, so a
failed lookup silently leaves the key unset). -/
def fc_ports_get_ids (p : FcParams) (c : FcCloud) (fail_on_error : Bool) :
    Except String FcPorts :=
  match p.logical_source_port with
  | none => fc_ports_get_ids_dst p c fail_on_error none
  | some v =>
    match c.get_port v with
    | none =>
      if fail_on_error then
        .error "Specified logical source port was not found."
      else
        fc_ports_get_ids_dst p c fail_on_error none
    | some port => fc_ports_get_ids_dst p c fail_on_error (some port.id)

/-- The `fc` lookup at the top of `main`. -/
def fc_current (p : FcParams) (c : FcCloud) : Option FcObj :=
  if truthyStr p.name then c.get_sfc_flow_classifier (p.name.getD "") else none

/-- `main` of `os_sfc_flow_classifier.py`.  Both resolver calls use
`fail_on_error=False` (the second one by the parameter default), so this
module never fails on an unresolved logical port. -/
def fc_main (p : FcParams) (check_mode : Bool) (c : FcCloud) :
    Outcome × List MutCall :=
  if check_mode then
    match fc_ports_get_ids p c false with
    | .error m => (.failed m, [])
    | .ok ports => (.exited (fc_system_state_change p (fc_current p c) ports), [])
  else
    match p.state with
    | .present =>
      match fc_ports_get_ids p c false with
      | .error m => (.failed m, [])
      | .ok ports =>
        match fc_current p c with
        | none =>
          (.exited true, [.createFlowClassifier (fc_compose_args p ports)])
        | some obj =>
          if fc_needs_update p obj ports then
            (.exited true, [.updateFlowClassifier obj.id (fc_compose_args p ports)])
          else
            (.exited false, [])
    | .absent =>
      match fc_current p c with
      | some obj => (.exited true, [.deleteFlowClassifier obj.id])
      | none => (.exited false, [])

/-! ## os_sfc_port_pair_group.py -/

/-- A live port pair group as returned by `cloud.get_sfc_port_pair_group`. -/
structure PpgObj where
  id : String
  name : String
  port_pairs : List String
  port_pair_group_parameters : PyDict
deriving DecidableEq

/-- The `module.params` of `os_sfc_port_pair_group`. -/
structure PpgParams where
  name : Option String
  port_pairs : Option (List String)
  port_pair_group_parameters : Option PyDict
  state : TargetState
deriving DecidableEq

/-- Read-only cloud SDK surface used by `os_sfc_port_pair_group`. -/
structure PpgCloud where
  get_sfc_port_pair : String → Option PortPairObj
  get_sfc_port_pair_group : String → Option PpgObj

/-- `_needs_update` of `os_sfc_port_pair_group.py`.  The first test is
`set(port_pairs) != set(ppg['port_pairs'])`; when the resolver handed back
`None` (check mode, missing `port_pairs` parameter) this is `set(None)`,
a `TypeError`.  `compare_dict = ['port_pair_group_parameters']`. -/
def ppg_needs_update (p : PpgParams) (g : PpgObj)
    (port_pairs : Option (List String)) : Except PyErr Bool :=
  match port_pairs with
  | none => .error (.typeError "\x27NoneType\x27 object is not iterable")
  | some l =>
    if !listSetEq l g.port_pairs then .ok true
    else
      match p.port_pair_group_parameters with
      | none => .ok false
      | some d => .ok (!dictEq d g.port_pair_group_parameters)

/-- `_system_state_change` of `os_sfc_port_pair_group.py` (propagating the
possible `TypeError` from `_needs_update`). -/
def ppg_system_state_change (p : PpgParams) (g : Option PpgObj)
    (port_pairs : Option (List String)) : Except PyErr Bool :=
  match p.state with
  | .present =>
    match g with
    | none => .ok true
    | some obj => ppg_needs_update p obj port_pairs
  | .absent => .ok g.isSome

/-- `_compose_port_pair_group_args` (the correctly-spelled helper used by
the create branch): optional parameters when not `None`, then
`ppg_kwargs['port_pairs'] = port_pairs` unconditionally. -/
def ppg_compose_args (p : PpgParams) (port_pairs : Option (List String)) :
    PpgKwargs :=
  { name := p.name
    port_pair_group_parameters := p.port_pair_group_parameters
    port_pairs := port_pairs }

/-- The per-element loop of `_port_pairs_get_ids`.  On a failed lookup with
`fail_on_error=True`, `fail_json` exits; with `fail_on_error=False` the code
falls through to `port_pairs.append(pp['id'])` on `None`, a `TypeError`. -/
def ppg_resolve_loop (c : PpgCloud) (fail_on_error : Bool) :
    List String → Except ResFail (List String)
  | [] => .ok []
  | pname :: rest =>
    match c.get_sfc_port_pair pname with
    | none =>
      if fail_on_error then
        .error (.fail ("Specified port pair `" ++ pname ++ "\x27 was not found."))
      else
        .error (.crash (.typeError "\x27NoneType\x27 object is not subscriptable"))
    | some pp =>
      match ppg_resolve_loop c fail_on_error rest with
      | .error e => .error e
      | .ok ids => .ok (pp.id :: ids)

/-- `_port_pairs_get_ids` of `os_sfc_port_pair_group.py`: `.ok none` models
the `return None` taken when the `port_pairs` parameter is falsy and
`fail_on_error=False`. -/
def ppg_port_pairs_get_ids (p : PpgParams) (c : PpgCloud)
    (fail_on_error : Bool) : Except ResFail (Option (List String)) :=
  if !truthyList p.port_pairs then
    if fail_on_error then
      .error (.fail "Parameter \x27port_pairs\x27 is required in Sfc Port Pair Group Create")
    else
      .ok none
  else
    match ppg_resolve_loop c fail_on_error (p.port_pairs.getD []) with
    | .error e => .error e
    | .ok ids => .ok (some ids)

/-- The `ppg` lookup at the top of `main`. -/
def ppg_current (p : PpgParams) (c : PpgCloud) : Option PpgObj :=
  if truthyStr p.name then c.get_sfc_port_pair_group (p.name.getD "") else none

/-- `main` of `os_sfc_port_pair_group.py`.  The update branch evaluates the
undefined name `_compose_port_pair_groups_args` (the helper is named
`_compose_port_pair_group_args`), raising `NameError` before the
`cloud.update_sfc_port_pair` call (itself the port-pair update, not the
port-pair-group one) can be reached; no update call of any kind is ever
issued by this module. -/
def ppg_main (p : PpgParams) (check_mode : Bool) (c : PpgCloud) :
    Outcome × List MutCall :=
  if check_mode then
    match ppg_port_pairs_get_ids p c false with
    | .error (.crash e) => (.crashed e, [])
    | .error (.fail m) => (.failed m, [])
    | .ok ids =>
      match ppg_system_state_change p (ppg_current p c) ids with
      | .error e => (.crashed e, [])
      | .ok b => (.exited b, [])
  else
    match p.state with
    | .present =>
      match ppg_port_pairs_get_ids p c true with
      | .error (.crash e) => (.crashed e, [])
      | .error (.fail m) => (.failed m, [])
      | .ok ids =>
        match ppg_current p c with
        | none =>
          (.exited true, [.createPortPairGroup (ppg_compose_args p ids)])
        | some obj =>
          match ppg_needs_update p obj ids with
          | .error e => (.crashed e, [])
          | .ok true =>
            (.crashed (.nameError
              "name \x27_compose_port_pair_groups_args\x27 is not defined"), [])
          | .ok false => (.exited false, [])
    | .absent =>
      match ppg_current p c with
      | some obj => (.exited true, [.deletePortPairGroup obj.id])
      | none => (.exited false, [])

/-! ## os_sfc_port_chain.py -/

/-- A live port chain as returned by `cloud.get_sfc_port_chain`. -/
structure PcObj where
  id : String
  name : String
  chain_id : String
  port_pair_groups : List String
  flow_classifiers : List String
  chain_parameters : PyDict
deriving DecidableEq

/-- The `module.params` of `os_sfc_port_chain`. -/
structure PcParams where
  name : Option String
  port_pair_groups : Option (List String)
  flow_classifiers : Option (List String)
  chain_parameters : Option PyDict
  chain_id : Option String
  state : TargetState
deriving DecidableEq

/-- The `pc_ids` dict built by `_port_chains_get_ids` on success: it always
carries both keys. -/
structure PcIds where
  port_pair_groups : List String
  flow_classifiers : List String
deriving DecidableEq

/-- Read-only cloud SDK surface used by `os_sfc_port_chain`. -/
structure PcCloud where
  get_sfc_port_pair_group : String → Option PpgObj
  get_sfc_flow_classifier : String → Option FcObj
  get_sfc_port_chain : String → Option PcObj

/-- `_needs_update` of `os_sfc_port_chain.py`, faults included:

* if `pc_ids` is `None` (check mode, falsy list parameter or failed lookup),
  the very first `pc_ids.get(key, pc[key])` raises `AttributeError`;
* `compare_simple = ['chain_id']`: `pc_ids` never carries a `chain_id` key,
  so the comparison value is `pc['chain_id']`;
* `compare_list`: each iteration first computes
  `value = pc_ids.get(key, pc[key])`, then tests
  `module.params[key] is not None and set(module.param[key]) != set(value)`;
  `module.param` is an undefined attribute, so a non-`None` list parameter
  raises `AttributeError` (`port_pair_groups` is tested first);
* `compare_dict = ['chain_parameters']` compares `module.params[key]`
  against the leftover loop variable `value`, by then
  `pc_ids['flow_classifiers']` — a list, so a supplied `chain_parameters`
  dict always compares unequal and the function returns `True` even when the
  dict equals `pc['chain_parameters']`. -/
def pc_needs_update (p : PcParams) (pc : PcObj) (pc_ids : Option PcIds) :
    Except PyErr Bool :=
  match pc_ids with
  | none => .error (.attributeError "\x27NoneType\x27 object has no attribute \x27get\x27")
  | some _ =>
    if scalarDiff p.chain_id pc.chain_id then .ok true
    else if p.port_pair_groups.isSome then
      .error (.attributeError "\x27AnsibleModule\x27 object has no attribute \x27param\x27")
    else if p.flow_classifiers.isSome then
      .error (.attributeError "\x27AnsibleModule\x27 object has no attribute \x27param\x27")
    else
      match p.chain_parameters with
      | none => .ok false
      | some _ => .ok true

/-- `_system_state_change` of `os_sfc_port_chain.py` (propagating the
possible faults from `_needs_update`). -/
def pc_system_state_change (p : PcParams) (pc : Option PcObj)
    (pc_ids : Option PcIds) : Except PyErr Bool :=
  match p.state with
  | .present =>
    match pc with
    | none => .ok true
    | some obj => pc_needs_update p obj pc_ids
  | .absent => .ok pc.isSome

/-- `_compose_port_chain_args`: each optional parameter is included when not
`None`, with the value taken from `pc_ids.get(optional_param, params[...])`,
so the two list fields come from the resolver output and the rest from the
parameters. -/
def pc_compose_args (p : PcParams) (ids : PcIds) : PcKwargs :=
  { name := p.name
    port_pair_groups :=
      if p.port_pair_groups.isSome then some ids.port_pair_groups else none
    flow_classifiers :=
      if p.flow_classifiers.isSome then some ids.flow_classifiers else none
    chain_parameters := p.chain_parameters
    chain_id := p.chain_id }

/-- The port-pair-group loop of `_port_chains_get_ids`: `.ok none` models the
`return None` taken on a failed lookup with `fail_on_error=False`. -/
def pc_resolve_ppgs (c : PcCloud) (fail_on_error : Bool) :
    List String → Except String (Option (List String))
  | [] => .ok (some [])
  | n :: rest =>
    match c.get_sfc_port_pair_group n with
    | none =>
      if fail_on_error then
        .error ("Specified port pair group `" ++ n ++ "\x27 wat not found.")
      else
        .ok none
    | some g =>
      match pc_resolve_ppgs c fail_on_error rest with
      | .error m => .error m
      | .ok none => .ok none
      | .ok (some ids) => .ok (some (g.id :: ids))

/-- The flow-classifier loop of `_port_chains_get_ids`.  The source reuses
the port-pair-group message verbatim (including the `wat` typo) for a
missing flow classifier. -/
def pc_resolve_fcs (c : PcCloud) (fail_on_error : Bool) :
    List String → Except String (Option (List String))
  | [] => .ok (some [])
  | n :: rest =>
    match c.get_sfc_flow_classifier n with
    | none =>
      if fail_on_error then
        .error ("Specified port pair group `" ++ n ++ "\x27 wat not found.")
      else
        .ok none
    | some fc =>
      match pc_resolve_fcs c fail_on_error rest with
      | .error m => .error m
      | .ok none => .ok none
      | .ok (some ids) => .ok (some (fc.id :: ids))

/-- `_port_chains_get_ids` of `os_sfc_port_chain.py`: requires both list
parameters to be truthy (in that order), resolving every element; `.ok none`
models every `return None` path taken with `fail_on_error=False`. -/
def pc_port_chains_get_ids (p : PcParams) (c : PcCloud)
    (fail_on_error : Bool) : Except String (Option PcIds) :=
  if !truthyList p.port_pair_groups then
    if fail_on_error then
      .error "Parameter \x27port_pair_groups\x27 is required in Sfc Port Chain Create"
    else
      .ok none
  else
    match pc_resolve_ppgs c fail_on_error (p.port_pair_groups.getD []) with
    | .error m => .error m
    | .ok none => .ok none
    | .ok (some ppgIds) =>
      if !truthyList p.flow_classifiers then
        if fail_on_error then
          .error "Parameter \x27flow_classifiers\x27 is required in Sfc Port Chain Create"
        else
          .ok none
      else
        match pc_resolve_fcs c fail_on_error (p.flow_classifiers.getD []) with
        | .error m => .error m
        | .ok none => .ok none
        | .ok (some fcIds) =>
          .ok (some { port_pair_groups := ppgIds, flow_classifiers := fcIds })

/-- The `pc` lookup at the top of `main`. -/
def pc_current (p : PcParams) (c : PcCloud) : Option PcObj :=
  if truthyStr p.name then c.get_sfc_port_chain (p.name.getD "") else none

/-- `main` of `os_sfc_port_chain.py`.  The arms that pattern-match a `None`
`pc_ids` in the non-check path model the `pc_ids.get` / subscript faults the
source would raise there; they are unreachable because the
`fail_on_error=True` resolver never returns `None`. -/
def pc_main (p : PcParams) (check_mode : Bool) (c : PcCloud) :
    Outcome × List MutCall :=
  if check_mode then
    match pc_port_chains_get_ids p c false with
    | .error m => (.failed m, [])
    | .ok ids =>
      match pc_system_state_change p (pc_current p c) ids with
      | .error e => (.crashed e, [])
      | .ok b => (.exited b, [])
  else
    match p.state with
    | .present =>
      match pc_port_chains_get_ids p c true with
      | .error m => (.failed m, [])
      | .ok idsOpt =>
        match pc_current p c with
        | none =>
          match idsOpt with
          | none =>
            (.crashed (.attributeError
              "\x27NoneType\x27 object has no attribute \x27get\x27"), [])
          | some ids =>
            (.exited true, [.createPortChain (pc_compose_args p ids)])
        | some obj =>
          match pc_needs_update p obj idsOpt with
          | .error e => (.crashed e, [])
          | .ok true =>
            match idsOpt with
            | none =>
              (.crashed (.attributeError
                "\x27NoneType\x27 object has no attribute \x27get\x27"), [])
            | some ids =>
              (.exited true, [.updatePortChain obj.id (pc_compose_args p ids)])
          | .ok false => (.exited false, [])
    | .absent =>
      match pc_current p c with
      | some obj => (.exited true, [.deletePortChain obj.id])
      | none => (.exited false, [])

/-! ## General lemmas about the four `main` functions -/

/-- The port-pair module issues at most one mutating call per invocation. -/
theorem pp_main_trace_length (p : PpParams) (b : Bool) (c : PpCloud) :
    ((pp_main p b c).2).length ≤ 1 := by
  unfold pp_main
  split
  · split <;> simp
  · split
    · split
      · simp
      · simp
      · split
        · split <;> simp
        · split <;> simp
    · split <;> simp

/-- The flow-classifier module issues at most one mutating call per
invocation. -/
theorem fc_main_trace_length (p : FcParams) (b : Bool) (c : FcCloud) :
    ((fc_main p b c).2).length ≤ 1 := by
  unfold fc_main
  split
  · split <;> simp
  · split
    · split
      · simp
      · split
        · simp
        · split <;> simp
    · split <;> simp

/-- The port-pair-group module issues at most one mutating call per
invocation. -/
theorem ppg_main_trace_length (p : PpgParams) (b : Bool) (c : PpgCloud) :
    ((ppg_main p b c).2).length ≤ 1 := by
  unfold ppg_main
  split
  · split
    · simp
    · simp
    · split <;> simp
  · split
    · split
      · simp
      · simp
      · split
        · simp
        · split <;> simp
    · split <;> simp

/-- The port-chain module issues at most one mutating call per invocation. -/
theorem pc_main_trace_length (p : PcParams) (b : Bool) (c : PcCloud) :
    ((pc_main p b c).2).length ≤ 1 := by
  unfold pc_main
  split
  · split
    · simp
    · split <;> simp
  · split
    · split
      · simp
      · split
        · split <;> simp
        · split
          · simp
          · split <;> simp
          · simp
    · split <;> simp

/-- In check mode the port-pair module never issues a mutating call. -/
theorem pp_main_check_trace (p : PpParams) (c : PpCloud) :
    ((pp_main p true c).2) = [] := by
  unfold pp_main
  rw [if_pos rfl]
  split <;> simp

/-- In check mode the flow-classifier module never issues a mutating call. -/
theorem fc_main_check_trace (p : FcParams) (c : FcCloud) :
    ((fc_main p true c).2) = [] := by
  unfold fc_main
  rw [if_pos rfl]
  split <;> simp

/-- In check mode the port-pair-group module never issues a mutating call. -/
theorem ppg_main_check_trace (p : PpgParams) (c : PpgCloud) :
    ((ppg_main p true c).2) = [] := by
  unfold ppg_main
  rw [if_pos rfl]
  split
  · simp
  · simp
  · split <;> simp

/-- In check mode the port-chain module never issues a mutating call. -/
theorem pc_main_check_trace (p : PcParams) (c : PcCloud) :
    ((pc_main p true c).2) = [] := by
  unfold pc_main
  rw [if_pos rfl]
  split
  · simp
  · split <;> simp

/-- When the check-mode resolver hands back ports, the port-pair module
exits with the `_system_state_change` verdict. -/
theorem pp_main_check_exit (p : PpParams) (c : PpCloud) (ports : PortsIds)
    (h : pp_ports_get_ids p c false = .ok ports) :
    pp_main p true c =
      (.exited (pp_system_state_change p (pp_current p c) ports), []) := by
  simp [pp_main, h]

/-- When the check-mode resolver hands back ports, the flow-classifier
module exits with the `_system_state_change` verdict. -/
theorem fc_main_check_exit (p : FcParams) (c : FcCloud) (ports : FcPorts)
    (h : fc_ports_get_ids p c false = .ok ports) :
    fc_main p true c =
      (.exited (fc_system_state_change p (fc_current p c) ports), []) := by
  simp [fc_main, h]

/-- When the check-mode resolver and the state-change decision both go
through, the port-pair-group module exits with that verdict. -/
theorem ppg_main_check_exit (p : PpgParams) (c : PpgCloud)
    (ids : Option (List String)) (b : Bool)
    (h1 : ppg_port_pairs_get_ids p c false = .ok ids)
    (h2 : ppg_system_state_change p (ppg_current p c) ids = .ok b) :
    ppg_main p true c = (.exited b, []) := by
  simp [ppg_main, h1, h2]

/-- When the check-mode resolver and the state-change decision both go
through, the port-chain module exits with that verdict. -/
theorem pc_main_check_exit (p : PcParams) (c : PcCloud)
    (ids : Option PcIds) (b : Bool)
    (h1 : pc_port_chains_get_ids p c false = .ok ids)
    (h2 : pc_system_state_change p (pc_current p c) ids = .ok b) :
    pc_main p true c = (.exited b, []) := by
  simp [pc_main, h1, h2]

/-- `state=absent` with no current port pair: `changed=false`, no calls. -/
theorem pp_main_absent_none (p : PpParams) (c : PpCloud)
    (hs : p.state = .absent) (hc : pp_current p c = none) :
    pp_main p false c = (.exited false, []) := by
  simp [pp_main, hs, hc]

/-- `state=absent` with no current flow classifier: `changed=false`, no
calls. -/
theorem fc_main_absent_none (p : FcParams) (c : FcCloud)
    (hs : p.state = .absent) (hc : fc_current p c = none) :
    fc_main p false c = (.exited false, []) := by
  simp [fc_main, hs, hc]

/-- `state=absent` with no current port pair group: `changed=false`, no
calls. -/
theorem ppg_main_absent_none (p : PpgParams) (c : PpgCloud)
    (hs : p.state = .absent) (hc : ppg_current p c = none) :
    ppg_main p false c = (.exited false, []) := by
  simp [ppg_main, hs, hc]

/-- `state=absent` with no current port chain: `changed=false`, no calls. -/
theorem pc_main_absent_none (p : PcParams) (c : PcCloud)
    (hs : p.state = .absent) (hc : pc_current p c = none) :
    pc_main p false c = (.exited false, []) := by
  simp [pc_main, hs, hc]

/-- Any port-pair update call carries the kwargs of
`_compose_port_pair_args`, whose `name` entry is the caller-supplied name;
and the update branch is only reachable when a truthy name was supplied. -/
theorem pp_update_kwargs_name (p : PpParams) (b : Bool) (c : PpCloud)
    (i : String) (kw : PpKwargs)
    (h : MutCall.updatePortPair i kw ∈ (pp_main p b c).2) :
    kw.name = p.name ∧ truthyStr p.name = true := by
  cases b
  · unfold pp_main at h
    rw [if_neg (by simp)] at h
    split at h
    · split at h
      · simp at h
      · simp at h
      · split at h
        · split at h <;> simp at h
        · rename_i hcur
          split at h
          · simp at h
            refine ⟨by rw [h.2]; rfl, ?_⟩
            by_contra hname
            simp only [Bool.not_eq_true] at hname
            rw [pp_current, hname] at hcur
            simp at hcur
          · simp at h
    · split at h <;> simp at h
  · rw [pp_main_check_trace] at h
    simp at h

/-- Any flow-classifier update call carries the kwargs of
`_compose_flow_classifier_args`, whose `name` entry is the caller-supplied
name; the update branch is only reachable when a truthy name was supplied. -/
theorem fc_update_kwargs_name (p : FcParams) (b : Bool) (c : FcCloud)
    (i : String) (kw : FcKwargs)
    (h : MutCall.updateFlowClassifier i kw ∈ (fc_main p b c).2) :
    kw.name = p.name ∧ truthyStr p.name = true := by
  cases b
  · unfold fc_main at h
    rw [if_neg (by simp)] at h
    split at h
    · split at h
      · simp at h
      · rename_i hok
        split at h
        · simp at h
        · rename_i hcur
          split at h
          · simp at h
            refine ⟨by rw [h.2]; rfl, ?_⟩
            by_contra hname
            simp only [Bool.not_eq_true] at hname
            rw [fc_current, hname] at hcur
            simp at hcur
          · simp at h
    · split at h <;> simp at h
  · rw [fc_main_check_trace] at h
    simp at h

/-- Any port-chain update call carries the kwargs of
`_compose_port_chain_args`, whose `name` entry is the caller-supplied name;
the update branch is only reachable when a truthy name was supplied. -/
theorem pc_update_kwargs_name (p : PcParams) (b : Bool) (c : PcCloud)
    (i : String) (kw : PcKwargs)
    (h : MutCall.updatePortChain i kw ∈ (pc_main p b c).2) :
    kw.name = p.name ∧ truthyStr p.name = true := by
  cases b
  · unfold pc_main at h
    rw [if_neg (by simp)] at h
    split at h
    · split at h
      · simp at h
      · split at h
        · split at h <;> simp at h
        · rename_i hcur
          split at h
          · simp at h
          · split at h
            · simp at h
            · simp at h
              refine ⟨by rw [h.2]; rfl, ?_⟩
              by_contra hname
              simp only [Bool.not_eq_true] at hname
              rw [pc_current, hname] at hcur
              simp at hcur
          · simp at h
    · split at h <;> simp at h
  · rw [pc_main_check_trace] at h
    simp at h

/-- `listSetEq` only depends on the left list up to permutation. -/
theorem listSetEq_perm_left {l l' x : List String} (h : l.Perm l') :
    listSetEq l x = listSetEq l' x := by
  have hc : ∀ a, l.contains a = l'.contains a := by
    intro a
    apply Bool.eq_iff_iff.mpr
    simp only [List.contains_iff_exists_mem_beq]
    exact ⟨fun ⟨b, hb, e⟩ => ⟨b, h.mem_iff.mp hb, e⟩,
           fun ⟨b, hb, e⟩ => ⟨b, h.mem_iff.mpr hb, e⟩⟩
  unfold listSetEq
  have e1 : l.all (fun a => x.contains a) = l'.all (fun a => x.contains a) := by
    apply Bool.eq_iff_iff.mpr
    simp only [List.all_eq_true]
    exact ⟨fun hh a ha => hh a (h.mem_iff.mpr ha),
           fun hh a ha => hh a (h.mem_iff.mp ha)⟩
  have e2 : x.all (fun a => l.contains a) = x.all (fun a => l'.contains a) := by
    apply Bool.eq_iff_iff.mpr
    simp only [List.all_eq_true]
    exact ⟨fun hh a ha => by rw [← hc a]; exact hh a ha,
           fun hh a ha => by rw [hc a]; exact hh a ha⟩
  rw [e1, e2]

/-- The port-pair-group `_needs_update` verdict is invariant under
permutation of the resolved `port_pairs` list (the comparison is
set-based). -/
theorem ppg_needs_update_perm (p : PpgParams) (g : PpgObj)
    {l l' : List String} (h : l.Perm l') :
    ppg_needs_update p g (some l) = ppg_needs_update p g (some l') := by
  dsimp only [ppg_needs_update]
  rw [listSetEq_perm_left h]

/-- When the resolved port-pair set matches the current group's and the
parameters dict matches (or was not supplied), the port-pair-group
`_needs_update` verdict is false. -/
theorem ppg_needs_update_false (p : PpgParams) (g : PpgObj)
    (l : List String)
    (hset : listSetEq l g.port_pairs = true)
    (hdict : p.port_pair_group_parameters = none ∨
      ∃ d, p.port_pair_group_parameters = some d ∧
        dictEq d g.port_pair_group_parameters = true) :
    ppg_needs_update p g (some l) = .ok false := by
  dsimp only [ppg_needs_update]
  rw [hset]
  rcases hdict with h | ⟨d, hd, he⟩
  · simp [h]
  · simp [hd, he]

/-- Port-chain `_needs_update` raises `AttributeError` (the `module.param`
misspelling) whenever a list parameter was supplied, the resolver handed
back ids and the `chain_id` comparison did not already return `True`. -/
theorem pc_needs_update_crashes (p : PcParams) (pc : PcObj) (ids : PcIds)
    (hchain : scalarDiff p.chain_id pc.chain_id = false)
    (hppg : p.port_pair_groups.isSome = true) :
    pc_needs_update p pc (some ids) =
      .error (.attributeError "\x27AnsibleModule\x27 object has no attribute \x27param\x27") := by
  simp [pc_needs_update, hchain, hppg]

/-- Port-chain module: `state=present`, `port_pair_groups` empty or absent
fails with the required-parameter message before any mutating call. -/
theorem pc_main_ppg_required (p : PcParams) (c : PcCloud)
    (hs : p.state = .present) (h : truthyList p.port_pair_groups = false) :
    pc_main p false c =
      (.failed "Parameter \x27port_pair_groups\x27 is required in Sfc Port Chain Create",
       []) := by
  simp [pc_main, hs, pc_port_chains_get_ids, h]

/-- Port-chain module: `state=present`, `port_pair_groups` resolving but
`flow_classifiers` empty or absent fails with the required-parameter
message before any mutating call. -/
theorem pc_main_fc_required (p : PcParams) (c : PcCloud) (ids : List String)
    (hs : p.state = .present)
    (hg : truthyList p.port_pair_groups = true)
    (hr : pc_resolve_ppgs c true (p.port_pair_groups.getD []) = .ok (some ids))
    (hf : truthyList p.flow_classifiers = false) :
    pc_main p false c =
      (.failed "Parameter \x27flow_classifiers\x27 is required in Sfc Port Chain Create",
       []) := by
  simp [pc_main, hs, pc_port_chains_get_ids, hg, hr, hf]

/-- Port-pair-group module: `state=present`, `port_pairs` empty or absent
fails with the required-parameter message before any mutating call. -/
theorem ppg_main_pp_required (p : PpgParams) (c : PpgCloud)
    (hs : p.state = .present) (h : truthyList p.port_pairs = false) :
    ppg_main p false c =
      (.failed "Parameter \x27port_pairs\x27 is required in Sfc Port Pair Group Create",
       []) := by
  simp [ppg_main, hs, ppg_port_pairs_get_ids, h]

/-- Port-pair module: `state=present` with truthy `ingress`/`egress`
parameters whose ingress lookup misses fails with the fixed
"Specified ingress port was not found." message (which does not mention the
supplied value) before any mutating call. -/
theorem pp_main_ingress_not_found (p : PpParams) (c : PpCloud)
    (hs : p.state = .present)
    (hi : truthyStr p.ingress = true)
    (he : truthyStr p.egress = true)
    (hl : c.get_port (p.ingress.getD "") = none) :
    pp_main p false c = (.failed "Specified ingress port was not found.", []) := by
  simp [pp_main, hs, pp_ports_get_ids, hi, he, hl]

/-- Port-pair-group module: whenever the update branch is reached
(`state=present`, not check mode, current group found, resolver succeeded,
`_needs_update` returned `True`), the run dies with the `NameError` for the
undefined `_compose_port_pair_groups_args` and issues no mutating call. -/
theorem ppg_main_update_branch_crashes (p : PpgParams) (c : PpgCloud)
    (g : PpgObj) (ids : Option (List String))
    (hs : p.state = .present)
    (hc : ppg_current p c = some g)
    (hr : ppg_port_pairs_get_ids p c true = .ok ids)
    (hu : ppg_needs_update p g ids = .ok true) :
    ppg_main p false c =
      (.crashed (.nameError "name \x27_compose_port_pair_groups_args\x27 is not defined"),
       []) := by
  simp [ppg_main, hs, hc, hr, hu]

/-- The port-pair-group module never issues an update call of any kind
(neither `update_sfc_port_pair_group`, which does not occur in the source,
nor the misdirected `update_sfc_port_pair`, which sits behind the
`NameError`). -/
theorem ppg_main_no_update_call (p : PpgParams) (b : Bool) (c : PpgCloud) :
    ((ppg_main p b c).2).all (fun m => !isUpdateCall m) = true := by
  cases b
  · unfold ppg_main
    rw [if_neg (by simp)]
    split
    · split
      · simp
      · simp
      · split
        · simp [isUpdateCall]
        · split <;> simp
    · split <;> simp [isUpdateCall]
  · rw [ppg_main_check_trace]
    rfl

/-! ## Concrete fixtures for counterexamples and witnesses -/

/-- A resolved port pair group living in the remote store. -/
def ppgObjA : PpgObj :=
  { id := "gid1", name := "ppg1", port_pairs := ["ppid1"],
    port_pair_group_parameters := [] }

/-- A second resolved port pair group living in the remote store. -/
def ppgObjB : PpgObj :=
  { id := "gid2", name := "ppg2", port_pairs := ["ppid2"],
    port_pair_group_parameters := [] }

/-- A resolved flow classifier living in the remote store. -/
def fcObjA : FcObj :=
  { id := "fid1", name := "fc1", ethertype := "IPv4", protocol := "tcp",
    source_port_range_min := "80", source_port_range_max := "80",
    destination_port_range_min := "80", destination_port_range_max := "80",
    source_ip_pfx := "10.20.0.0/24", destination_ip_pfx := "10.22.2.0/24",
    logical_source_port := "lsp-id", logical_destination_port := "ldp-id",
    l7_parameters := [] }

/-- C1 fixture: port-chain parameters whose two `port_pair_groups` entries
resolve to the IDs already on the chain. -/
def pcC1params : PcParams :=
  { name := some "pc1", port_pair_groups := some ["ppg1", "ppg2"],
    flow_classifiers := some ["fc1"], chain_parameters := none,
    chain_id := none, state := .present }

/-- C1 fixture: the same parameters with the `port_pair_groups` input
reordered. -/
def pcC1paramsPerm : PcParams :=
  { pcC1params with port_pair_groups := some ["ppg2", "ppg1"] }

/-- C1 fixture: the existing chain, carrying the same resolved ID sets. -/
def pcC1obj : PcObj :=
  { id := "pc-id", name := "pc1", chain_id := "7",
    port_pair_groups := ["gid2", "gid1"], flow_classifiers := ["fid1"],
    chain_parameters := [] }

/-- C1 fixture: remote store for the port-chain run. -/
def pcC1cloud : PcCloud :=
  { get_sfc_port_pair_group := fun s =>
      if s = "ppg1" then some ppgObjA
      else if s = "ppg2" then some ppgObjB else none
    get_sfc_flow_classifier := fun s => if s = "fc1" then some fcObjA else none
    get_sfc_port_chain := fun s => if s = "pc1" then some pcC1obj else none }

/-- C2 fixture: port-pair parameters referring to ports by name. -/
def ppC2params : PpParams :=
  { name := some "pp1", ingress := some "port1", egress := some "port2",
    service_function_parameters := none, state := .present }

/-- C2 fixture: remote store before the first invocation (no port pair). -/
def ppC2cloud1 : PpCloud :=
  { get_port := fun s =>
      if s = "port1" then some { id := "ing-id" }
      else if s = "port2" then some { id := "eg-id" } else none
    get_sfc_port_pair := fun _ => none }

/-- C2 fixture: the port pair created by the first invocation, reference
fields populated with the resolved IDs. -/
def ppC2obj : PortPairObj :=
  { id := "pp-id", name := "pp1", ingress := "ing-id", egress := "eg-id",
    service_function_parameters := [] }

/-- C2 fixture: remote store as seen by the second invocation. -/
def ppC2cloud2 : PpCloud :=
  { get_port := ppC2cloud1.get_port
    get_sfc_port_pair := fun s => if s = "pp1" then some ppC2obj else none }

/-- C2 fixture: port-chain parameters for the second invocation. -/
def pcC2params : PcParams :=
  { name := some "pc1", port_pair_groups := some ["ppg1"],
    flow_classifiers := some ["fc1"], chain_parameters := none,
    chain_id := none, state := .present }

/-- C2 fixture: the port chain created by the first invocation. -/
def pcC2obj : PcObj :=
  { id := "pc-id", name := "pc1", chain_id := "7",
    port_pair_groups := ["gid1"], flow_classifiers := ["fid1"],
    chain_parameters := [] }

/-- C2 fixture: remote store as seen by the second port-chain invocation. -/
def pcC2cloud2 : PcCloud :=
  { get_sfc_port_pair_group := fun s => if s = "ppg1" then some ppgObjA else none
    get_sfc_flow_classifier := fun s => if s = "fc1" then some fcObjA else none
    get_sfc_port_chain := fun s => if s = "pc1" then some pcC2obj else none }

/-! ## Claim theorems -/

/-- Claim C1: the claim says that for a list-ref field, an existing object
and a caller-supplied non-empty list whose resolved ID set equals the
current object's, `needs_update` is false for every input order and the
`present` reconciliation reports `changed=false`.  The port-chain code
violates this: with resolved set {gid1, gid2} equal to the chain's set (in
either input order) the run crashes with `AttributeError` on the misspelled
`module.param` instead of exiting with `changed=false`. -/
theorem sfc_c1_port_chain_set_compare_crashes :
    listSetEq ["gid1", "gid2"] pcC1obj.port_pair_groups = true ∧
    listSetEq ["fid1"] pcC1obj.flow_classifiers = true ∧
    pc_main pcC1params false pcC1cloud =
      (.crashed (.attributeError
        "\x27AnsibleModule\x27 object has no attribute \x27param\x27"), []) ∧
    pc_main pcC1paramsPerm false pcC1cloud =
      (.crashed (.attributeError
        "\x27AnsibleModule\x27 object has no attribute \x27param\x27"), []) := by
  refine ⟨by decide, by decide, by decide, by decide⟩

/-- Claim C2: the claim says a second `present` invocation against the
object created by the first returns `changed=false`.  The code violates
this twice over: the port-pair module compares the raw caller-supplied
port names against the resolved IDs, so the second run issues an update
and reports `changed=true`; the port-chain second run crashes with
`AttributeError` (`module.param`) inside `_needs_update`. -/
theorem sfc_c2_second_apply_not_idempotent :
    pp_main ppC2params false ppC2cloud1 =
      (.exited true, [.createPortPair
        { name := some "pp1", ingress := some "ing-id", egress := some "eg-id",
          service_function_parameters := none }]) ∧
    pp_main ppC2params false ppC2cloud2 =
      (.exited true, [.updatePortPair "pp-id"
        { name := some "pp1", ingress := some "port1", egress := some "port2",
          service_function_parameters := none }]) ∧
    pc_main pcC2params false pcC2cloud2 =
      (.crashed (.attributeError
        "\x27AnsibleModule\x27 object has no attribute \x27param\x27"), []) := by
  refine ⟨by decide, by decide, by decide⟩

/-- Claim C3: a speculative (check-mode) invocation of any of the four
modules issues no create, update or delete call; whenever the check-mode
resolution goes through it exits with exactly the `_system_state_change`
verdict. -/
theorem sfc_c3_speculative_never_mutates :
    (∀ (p : PpParams) (c : PpCloud), (pp_main p true c).2 = [] ∧
      ∀ ports, pp_ports_get_ids p c false = .ok ports →
        pp_main p true c =
          (.exited (pp_system_state_change p (pp_current p c) ports), [])) ∧
    (∀ (p : FcParams) (c : FcCloud), (fc_main p true c).2 = [] ∧
      ∀ ports, fc_ports_get_ids p c false = .ok ports →
        fc_main p true c =
          (.exited (fc_system_state_change p (fc_current p c) ports), [])) ∧
    (∀ (p : PpgParams) (c : PpgCloud), (ppg_main p true c).2 = [] ∧
      ∀ ids b, ppg_port_pairs_get_ids p c false = .ok ids →
        ppg_system_state_change p (ppg_current p c) ids = .ok b →
        ppg_main p true c = (.exited b, [])) ∧
    (∀ (p : PcParams) (c : PcCloud), (pc_main p true c).2 = [] ∧
      ∀ ids b, pc_port_chains_get_ids p c false = .ok ids →
        pc_system_state_change p (pc_current p c) ids = .ok b →
        pc_main p true c = (.exited b, [])) :=
  ⟨fun p c => ⟨pp_main_check_trace p c, fun ports h => pp_main_check_exit p c ports h⟩,
   fun p c => ⟨fc_main_check_trace p c, fun ports h => fc_main_check_exit p c ports h⟩,
   fun p c => ⟨ppg_main_check_trace p c,
     fun ids b h1 h2 => ppg_main_check_exit p c ids b h1 h2⟩,
   fun p c => ⟨pc_main_check_trace p c,
     fun ids b h1 h2 => pc_main_check_exit p c ids b h1 h2⟩⟩

/-- C3 witness fixture: port-pair check-mode parameters. -/
def ppW3params : PpParams :=
  { name := some "pp1", ingress := some "port1", egress := some "port2",
    service_function_parameters := none, state := .present }

/-- C3 witness fixture: remote store with both ports resolvable and no
existing port pair. -/
def ppW3cloud : PpCloud :=
  { get_port := fun s =>
      if s = "port1" then some { id := "ing-id" }
      else if s = "port2" then some { id := "eg-id" } else none
    get_sfc_port_pair := fun _ => none }

/-- C3 witness fixture: port-pair-group check-mode parameters. -/
def ppgW3params : PpgParams :=
  { name := none, port_pairs := none, port_pair_group_parameters := none,
    state := .absent }

/-- C3 witness fixture: empty remote store for the group run. -/
def ppgW3cloud : PpgCloud :=
  { get_sfc_port_pair := fun _ => none
    get_sfc_port_pair_group := fun _ => none }

/-- Witness for C3: the check-mode facts instantiated on concrete runs,
with the resolver hypotheses discharged by computation. -/
theorem sfc_c3_witness :
    pp_main ppW3params true ppW3cloud =
      (.exited (pp_system_state_change ppW3params (pp_current ppW3params ppW3cloud)
        { ingress := some "ing-id", egress := some "eg-id" }), []) ∧
    (ppg_main ppgW3params true ppgW3cloud).2 = [] ∧
    ppg_main ppgW3params true ppgW3cloud = (.exited false, []) :=
  ⟨(sfc_c3_speculative_never_mutates.1 ppW3params ppW3cloud).2 _ (by decide),
   (sfc_c3_speculative_never_mutates.2.2.1 ppgW3params ppgW3cloud).1,
   (sfc_c3_speculative_never_mutates.2.2.1 ppgW3params ppgW3cloud).2 none false
     (by decide) (by decide)⟩

/-- C4 fixture: flow-classifier parameters that trigger an update (the
source prefix differs from the live object's). -/
def fcC4params : FcParams :=
  { name := some "fc1", ethertype := none, protocol := none,
    source_port_range_min := none, source_port_range_max := none,
    destination_port_range_min := none, destination_port_range_max := none,
    source_ip_pfx := some "10.0.0.0/24", destination_ip_pfx := none,
    logical_source_port := none, logical_destination_port := none,
    l7_parameters := none, state := .present }

/-- C4 fixture: the existing flow classifier with a different source
prefix. -/
def fcC4obj : FcObj :=
  { fcObjA with id := "fid4", source_ip_pfx := "10.1.0.0/24" }

/-- C4 fixture: remote store holding `fcC4obj` under the name `fc1`. -/
def fcC4cloud : FcCloud :=
  { get_port := fun _ => none
    get_sfc_flow_classifier := fun s => if s = "fc1" then some fcC4obj else none }

/-- C4 fixture: the kwargs the update call receives. -/
def fcC4kwargs : FcKwargs :=
  { name := some "fc1", ethertype := none, protocol := none,
    source_port_range_min := none, source_port_range_max := none,
    destination_port_range_min := none, destination_port_range_max := none,
    source_ip_pfx := some "10.0.0.0/24", destination_ip_pfx := none,
    l7_parameters := none, logical_source_port := none,
    logical_destination_port := none }

/-- Counterexample to C4 as stated: a concrete flow-classifier update whose
payload carries the `name` key (the `_compose_flow_classifier_args` list of
optional parameters starts with `name`, and `name` must have been supplied
for the current object to have been found at all). -/
theorem sfc_c4_counterexample :
    fc_main fcC4params false fcC4cloud =
      (.exited true, [.updateFlowClassifier "fid4" fcC4kwargs]) ∧
    fcC4kwargs.name = some "fc1" := by
  refine ⟨by decide, by decide⟩

/-- Claim C4 as amended: every update payload issued by the port-pair,
flow-classifier and port-chain modules does contain the `name` field, equal
to the caller-supplied name (which is necessarily truthy for an update to
happen); the name is merely excluded from the `_needs_update` comparison,
not from the payload.  (The port-pair-group module never reaches an update
call at all; see C10.) -/
theorem sfc_c4_amended_name_in_update_payload :
    (∀ (p : PpParams) (b : Bool) (c : PpCloud) (i : String) (kw : PpKwargs),
      MutCall.updatePortPair i kw ∈ (pp_main p b c).2 →
      kw.name = p.name ∧ truthyStr p.name = true) ∧
    (∀ (p : FcParams) (b : Bool) (c : FcCloud) (i : String) (kw : FcKwargs),
      MutCall.updateFlowClassifier i kw ∈ (fc_main p b c).2 →
      kw.name = p.name ∧ truthyStr p.name = true) ∧
    (∀ (p : PcParams) (b : Bool) (c : PcCloud) (i : String) (kw : PcKwargs),
      MutCall.updatePortChain i kw ∈ (pc_main p b c).2 →
      kw.name = p.name ∧ truthyStr p.name = true) :=
  ⟨pp_update_kwargs_name, fc_update_kwargs_name, pc_update_kwargs_name⟩

/-- Witness for the amended C4, instantiated on the concrete
flow-classifier update run. -/
theorem sfc_c4_witness :
    fcC4kwargs.name = fcC4params.name ∧ truthyStr fcC4params.name = true :=
  sfc_c4_amended_name_in_update_payload.2.1 fcC4params false fcC4cloud
    "fid4" fcC4kwargs (by decide)

/-- C5 fixture: port-chain parameters supplying a `chain_parameters` dict
identical to the live chain's. -/
def pcC5params : PcParams :=
  { name := some "pc5", port_pair_groups := some ["ppg1"],
    flow_classifiers := some ["fc1"],
    chain_parameters := some [("correlation", "mpls")],
    chain_id := none, state := .present }

/-- C5 fixture: the live chain with that very same dict. -/
def pcC5obj : PcObj :=
  { id := "pc5-id", name := "pc5", chain_id := "7",
    port_pair_groups := ["gid1"], flow_classifiers := ["fid1"],
    chain_parameters := [("correlation", "mpls")] }

/-- C5 fixture: remote store for the port-chain run. -/
def pcC5cloud : PcCloud :=
  { get_sfc_port_pair_group := fun s => if s = "ppg1" then some ppgObjA else none
    get_sfc_flow_classifier := fun s => if s = "fc1" then some fcObjA else none
    get_sfc_port_chain := fun s => if s = "pc5" then some pcC5obj else none }

/-- C5 fixture: list-free parameters that drive `_needs_update` into the
`compare_dict` loop (possible only with both list parameters `None`). -/
def pcC5listFree : PcParams :=
  { name := some "pc5", port_pair_groups := none, flow_classifiers := none,
    chain_parameters := some [("correlation", "mpls")], chain_id := none,
    state := .present }

/-- C5 fixture: port-pair parameters for the documented mpls/nsh scenario
(ports referenced directly by their IDs). -/
def ppC5params : PpParams :=
  { name := some "pp5", ingress := some "i5-id", egress := some "e5-id",
    service_function_parameters := some [("correlation", "nsh")],
    state := .present }

/-- C5 fixture: the existing port pair carrying the mpls dict. -/
def ppC5obj : PortPairObj :=
  { id := "pp5-id", name := "pp5", ingress := "i5-id", egress := "e5-id",
    service_function_parameters := [("correlation", "mpls")] }

/-- C5 fixture: remote store for the port-pair run. -/
def ppC5cloud : PpCloud :=
  { get_port := fun s =>
      if s = "i5-id" then some { id := "i5-id" }
      else if s = "e5-id" then some { id := "e5-id" } else none
    get_sfc_port_pair := fun s => if s = "pp5" then some ppC5obj else none }

/-- Claim C5: the claim holds for the port-pair module (mpls → nsh flips
`_needs_update` to true and the update payload carries the new dict) but
the port-chain module violates it: with `chain_parameters` equal to the
live chain's dict the invocation crashes with `AttributeError` before any
dict comparison, and the `compare_dict` code itself compares the dict
against the leftover flow-classifier ID list (the loop variable `value`),
reporting `True` even though the dicts are equal. -/
theorem sfc_c5_dict_compare :
    dictEq [("correlation", "mpls")] pcC5obj.chain_parameters = true ∧
    pc_main pcC5params false pcC5cloud =
      (.crashed (.attributeError
        "\x27AnsibleModule\x27 object has no attribute \x27param\x27"), []) ∧
    pc_needs_update pcC5listFree pcC5obj
      (some { port_pair_groups := ["gid1"], flow_classifiers := ["fid1"] }) =
      .ok true ∧
    pp_needs_update ppC5params ppC5obj
      { ingress := some "i5-id", egress := some "e5-id" } = true ∧
    pp_main ppC5params false ppC5cloud =
      (.exited true, [.updatePortPair "pp5-id"
        { name := some "pp5", ingress := some "i5-id", egress := some "e5-id",
          service_function_parameters := some [("correlation", "nsh")] }]) := by
  refine ⟨by decide, by decide, by decide, by decide, by decide⟩

/-- Claim C6: a list-ref field required on create that is empty or absent
makes the `present` run fail inside `_port_chains_get_ids` /
`_port_pairs_get_ids` with the required-parameter message, before any
create or update call (the trace is empty): `port_pair_groups` and
`flow_classifiers` of a port chain, and `port_pairs` of a port pair
group. -/
theorem sfc_c6_required_list_fields :
    (∀ (p : PcParams) (c : PcCloud), p.state = .present →
      truthyList p.port_pair_groups = false →
      pc_main p false c =
        (.failed "Parameter \x27port_pair_groups\x27 is required in Sfc Port Chain Create",
         [])) ∧
    (∀ (p : PcParams) (c : PcCloud) (ids : List String), p.state = .present →
      truthyList p.port_pair_groups = true →
      pc_resolve_ppgs c true (p.port_pair_groups.getD []) = .ok (some ids) →
      truthyList p.flow_classifiers = false →
      pc_main p false c =
        (.failed "Parameter \x27flow_classifiers\x27 is required in Sfc Port Chain Create",
         [])) ∧
    (∀ (p : PpgParams) (c : PpgCloud), p.state = .present →
      truthyList p.port_pairs = false →
      ppg_main p false c =
        (.failed "Parameter \x27port_pairs\x27 is required in Sfc Port Pair Group Create",
         [])) :=
  ⟨fun p c hs h => pc_main_ppg_required p c hs h,
   fun p c ids hs hg hr hf => pc_main_fc_required p c ids hs hg hr hf,
   fun p c hs h => ppg_main_pp_required p c hs h⟩

/-- C6 witness fixture: a port-chain run missing `port_pair_groups`. -/
def pcW6a : PcParams :=
  { name := some "pc1", port_pair_groups := none, flow_classifiers := some ["fc1"],
    chain_parameters := none, chain_id := none, state := .present }

/-- C6 witness fixture: a port-chain run with resolvable
`port_pair_groups` but empty `flow_classifiers`. -/
def pcW6b : PcParams :=
  { name := some "pc1", port_pair_groups := some ["ppg1"],
    flow_classifiers := some [], chain_parameters := none, chain_id := none,
    state := .present }

/-- C6 witness fixture: remote store resolving `ppg1`. -/
def pcW6cloud : PcCloud :=
  { get_sfc_port_pair_group := fun s => if s = "ppg1" then some ppgObjA else none
    get_sfc_flow_classifier := fun _ => none
    get_sfc_port_chain := fun _ => none }

/-- C6 witness fixture: a port-pair-group run missing `port_pairs`. -/
def ppgW6 : PpgParams :=
  { name := some "ppg1", port_pairs := none,
    port_pair_group_parameters := none, state := .present }

/-- C6 witness fixture: empty remote store for the group run. -/
def ppgW6cloud : PpgCloud :=
  { get_sfc_port_pair := fun _ => none
    get_sfc_port_pair_group := fun _ => none }

/-- Witness for C6: the three required-field failures on concrete runs. -/
theorem sfc_c6_witness :
    pc_main pcW6a false pcW6cloud =
      (.failed "Parameter \x27port_pair_groups\x27 is required in Sfc Port Chain Create",
       []) ∧
    pc_main pcW6b false pcW6cloud =
      (.failed "Parameter \x27flow_classifiers\x27 is required in Sfc Port Chain Create",
       []) ∧
    ppg_main ppgW6 false ppgW6cloud =
      (.failed "Parameter \x27port_pairs\x27 is required in Sfc Port Pair Group Create",
       []) :=
  ⟨sfc_c6_required_list_fields.1 pcW6a pcW6cloud rfl (by decide),
   sfc_c6_required_list_fields.2.1 pcW6b pcW6cloud ["gid1"] rfl (by decide)
     (by decide) (by decide),
   sfc_c6_required_list_fields.2.2 ppgW6 ppgW6cloud rfl (by decide)⟩

/-- C7 fixture: port-pair parameters whose ingress does not resolve. -/
def ppC7a : PpParams :=
  { name := some "pp7", ingress := some "port-a", egress := some "port-b",
    service_function_parameters := none, state := .present }

/-- C7 fixture: the same run with a completely different ingress value. -/
def ppC7b : PpParams :=
  { ppC7a with ingress := some "another-port-entirely" }

/-- C7 fixture: remote store in which no port resolves. -/
def ppC7cloud : PpCloud :=
  { get_port := fun _ => none
    get_sfc_port_pair := fun _ => none }

/-- Counterexample to C7 as stated: the failure message for an unresolved
ingress port is the fixed string "Specified ingress port was not found.",
identical for two different supplied values, so it cannot name the
supplied value as the claim requires. -/
theorem sfc_c7_counterexample :
    ppC7a.ingress ≠ ppC7b.ingress ∧
    pp_main ppC7a false ppC7cloud =
      (.failed "Specified ingress port was not found.", []) ∧
    pp_main ppC7b false ppC7cloud =
      (.failed "Specified ingress port was not found.", []) := by
  refine ⟨by decide, by decide, by decide⟩

/-- Claim C7 as amended: when the required ingress reference of a port pair
does not resolve under `state=present`, the invocation fails during
dependency resolution with an error naming the field ("Specified ingress
port was not found.") — but not the supplied value — and no create call is
made. -/
theorem sfc_c7_amended_ref_not_found :
    ∀ (p : PpParams) (c : PpCloud), p.state = .present →
      truthyStr p.ingress = true → truthyStr p.egress = true →
      c.get_port (p.ingress.getD "") = none →
      pp_main p false c =
        (.failed "Specified ingress port was not found.", []) :=
  fun p c hs hi he hl => pp_main_ingress_not_found p c hs hi he hl

/-- Witness for the amended C7 on a concrete run. -/
theorem sfc_c7_witness :
    pp_main ppC7a false ppC7cloud =
      (.failed "Specified ingress port was not found.", []) :=
  sfc_c7_amended_ref_not_found ppC7a ppC7cloud rfl (by decide) (by decide)
    (by decide)

/-- Claim C8: `state=absent` with no current object (the name lookup comes
back empty) exits with `changed=false` and an empty mutating-call trace,
for all four modules. -/
theorem sfc_c8_absent_nonexistent :
    (∀ (p : PpParams) (c : PpCloud), p.state = .absent →
      pp_current p c = none → pp_main p false c = (.exited false, [])) ∧
    (∀ (p : FcParams) (c : FcCloud), p.state = .absent →
      fc_current p c = none → fc_main p false c = (.exited false, [])) ∧
    (∀ (p : PpgParams) (c : PpgCloud), p.state = .absent →
      ppg_current p c = none → ppg_main p false c = (.exited false, [])) ∧
    (∀ (p : PcParams) (c : PcCloud), p.state = .absent →
      pc_current p c = none → pc_main p false c = (.exited false, [])) :=
  ⟨fun p c hs hc => pp_main_absent_none p c hs hc,
   fun p c hs hc => fc_main_absent_none p c hs hc,
   fun p c hs hc => ppg_main_absent_none p c hs hc,
   fun p c hs hc => pc_main_absent_none p c hs hc⟩

/-- C8 witness fixture: port-pair deletion parameters for an object that
does not exist. -/
def ppW8 : PpParams :=
  { name := some "gone", ingress := none, egress := none,
    service_function_parameters := none, state := .absent }

/-- C8 witness fixture: flow-classifier deletion parameters. -/
def fcW8 : FcParams :=
  { name := some "gone", ethertype := none, protocol := none,
    source_port_range_min := none, source_port_range_max := none,
    destination_port_range_min := none, destination_port_range_max := none,
    source_ip_pfx := none, destination_ip_pfx := none,
    logical_source_port := none, logical_destination_port := none,
    l7_parameters := none, state := .absent }

/-- C8 witness fixture: port-pair-group deletion parameters. -/
def ppgW8 : PpgParams :=
  { name := some "gone", port_pairs := none,
    port_pair_group_parameters := none, state := .absent }

/-- C8 witness fixture: port-chain deletion parameters. -/
def pcW8 : PcParams :=
  { name := some "gone", port_pair_groups := none, flow_classifiers := none,
    chain_parameters := none, chain_id := none, state := .absent }

/-- C8 witness fixture: an entirely empty remote store, shared shapes. -/
def ppW8cloud : PpCloud :=
  { get_port := fun _ => none, get_sfc_port_pair := fun _ => none }

/-- C8 witness fixture: empty flow-classifier store. -/
def fcW8cloud : FcCloud :=
  { get_port := fun _ => none, get_sfc_flow_classifier := fun _ => none }

/-- C8 witness fixture: empty port-pair-group store. -/
def ppgW8cloud : PpgCloud :=
  { get_sfc_port_pair := fun _ => none, get_sfc_port_pair_group := fun _ => none }

/-- C8 witness fixture: empty port-chain store. -/
def pcW8cloud : PcCloud :=
  { get_sfc_port_pair_group := fun _ => none,
    get_sfc_flow_classifier := fun _ => none,
    get_sfc_port_chain := fun _ => none }

/-- Witness for C8 on concrete deletion runs against an empty store. -/
theorem sfc_c8_witness :
    pp_main ppW8 false ppW8cloud = (.exited false, []) ∧
    fc_main fcW8 false fcW8cloud = (.exited false, []) ∧
    ppg_main ppgW8 false ppgW8cloud = (.exited false, []) ∧
    pc_main pcW8 false pcW8cloud = (.exited false, []) :=
  ⟨sfc_c8_absent_nonexistent.1 ppW8 ppW8cloud rfl (by decide),
   sfc_c8_absent_nonexistent.2.1 fcW8 fcW8cloud rfl (by decide),
   sfc_c8_absent_nonexistent.2.2.1 ppgW8 ppgW8cloud rfl (by decide),
   sfc_c8_absent_nonexistent.2.2.2 pcW8 pcW8cloud rfl (by decide)⟩

/-- Claim C9: no invocation of any of the four modules ever issues more
than one mutating remote-store call. -/
theorem sfc_c9_at_most_one_mutating_call :
    (∀ (p : PpParams) (b : Bool) (c : PpCloud),
      ((pp_main p b c).2).length ≤ 1) ∧
    (∀ (p : FcParams) (b : Bool) (c : FcCloud),
      ((fc_main p b c).2).length ≤ 1) ∧
    (∀ (p : PpgParams) (b : Bool) (c : PpgCloud),
      ((ppg_main p b c).2).length ≤ 1) ∧
    (∀ (p : PcParams) (b : Bool) (c : PcCloud),
      ((pc_main p b c).2).length ≤ 1) :=
  ⟨pp_main_trace_length, fc_main_trace_length, ppg_main_trace_length,
   pc_main_trace_length⟩

/-- Claim C10: the port-pair-group module never calls any update operation
on the remote store (in particular never the port-pair-group update), and
whenever the update branch is actually reached (`state=present`, current
group exists, `_needs_update` returned `True`, not check mode) the run
dies with the `NameError` for the undefined name
`_compose_port_pair_groups_args` — before the misdirected
`cloud.update_sfc_port_pair` call behind it could fire. -/
theorem sfc_c10_ppg_update_branch_dead :
    (∀ (p : PpgParams) (b : Bool) (c : PpgCloud),
      ((ppg_main p b c).2).all (fun m => !isUpdateCall m) = true) ∧
    (∀ (p : PpgParams) (c : PpgCloud) (g : PpgObj) (ids : Option (List String)),
      p.state = .present →
      ppg_current p c = some g →
      ppg_port_pairs_get_ids p c true = .ok ids →
      ppg_needs_update p g ids = .ok true →
      ppg_main p false c =
        (.crashed (.nameError
          "name \x27_compose_port_pair_groups_args\x27 is not defined"), [])) :=
  ⟨ppg_main_no_update_call,
   fun p c g ids hs hc hr hu => ppg_main_update_branch_crashes p c g ids hs hc hr hu⟩

/-- C10 witness fixture: a group whose resolved port pairs differ from the
live object's, forcing the update branch. -/
def ppgW10 : PpgParams :=
  { name := some "ppg1", port_pairs := some ["pp1"],
    port_pair_group_parameters := none, state := .present }

/-- C10 witness fixture: the live group with a different port-pair set. -/
def ppgW10obj : PpgObj :=
  { id := "gid1", name := "ppg1", port_pairs := ["stale-id"],
    port_pair_group_parameters := [] }

/-- C10 witness fixture: remote store resolving `pp1` and holding the
stale group. -/
def ppgW10cloud : PpgCloud :=
  { get_sfc_port_pair := fun s =>
      if s = "pp1" then
        some { id := "fresh-id", name := "pp1", ingress := "i", egress := "e",
               service_function_parameters := [] }
      else none
    get_sfc_port_pair_group := fun s => if s = "ppg1" then some ppgW10obj else none }

/-- Witness for C10: the concrete update-branch run crashes with the
`NameError` and issues no call. -/
theorem sfc_c10_witness :
    ppg_main ppgW10 false ppgW10cloud =
      (.crashed (.nameError
        "name \x27_compose_port_pair_groups_args\x27 is not defined"), []) :=
  sfc_c10_ppg_update_branch_dead.2 ppgW10 ppgW10cloud ppgW10obj
    (some ["fresh-id"]) rfl (by decide) (by decide) (by decide)
